import Mathlib

/-
Verification of the review/rating/filter model implemented in
src/js/enhanced-interactions.js of the bespoke-bags site.

The Lean definitions below are a shallow embedding of that source file:
each definition's doc comment points to the class, method and line range it
translates.  Browser machinery (DOM nodes, localStorage, notifications) is
represented by explicit state values; JavaScript numbers that the program
ever stores are all nonnegative integers and are modelled as Nat, except the
displayed mean rating, which is modelled as an exact rational.
-/

set_option maxRecDepth 8000

namespace BespokeBags

/-- Structural JSON values: the result of a successful `JSON.parse` and the
input of `JSON.stringify`.  Numbers are restricted to naturals because every
number this program stores (`id = Date.now()`, `rating`, `helpful`) is a
nonnegative integer. -/
inductive Json where
  | null
  | bool (b : Bool)
  | num (n : Nat)
  | str (s : String)
  | arr (elems : List Json)
  | obj (fields : List (String × Json))

/-- A customer review record with the exact field set built by
`ReviewSystem.submitReview` (enhanced-interactions.js lines 767-778):
`review` is the body text and `name` the author name, exactly as the source
names them. -/
structure Review where
  id : Nat
  rating : Nat
  title : String
  review : String
  name : String
  email : String
  recommend : Bool
  date : String
  helpful : Nat
  images : List String
deriving DecidableEq

/-- `JSON.stringify` of one review object, at the JSON-value level, with the
field order of the object literal at lines 767-778. -/
def encodeReview (r : Review) : Json :=
  Json.obj [("id", Json.num r.id), ("rating", Json.num r.rating),
    ("title", Json.str r.title), ("review", Json.str r.review),
    ("name", Json.str r.name), ("email", Json.str r.email),
    ("recommend", Json.bool r.recommend), ("date", Json.str r.date),
    ("helpful", Json.num r.helpful),
    ("images", Json.arr (r.images.map Json.str))]

/-- `JSON.stringify(this.reviews)` at the JSON-value level (line 937). -/
def encodeReviews (rs : List Review) : Json :=
  Json.arr (rs.map encodeReview)

/-- Field access on a parsed JSON object (first binding wins, as in a
JavaScript object literal read). -/
def jfield (k : String) : List (String × Json) → Option Json
  | [] => none
  | (k', v) :: fs => if k' = k then some v else jfield k fs

/-- Read a JSON value as a nonnegative number. -/
def asNum : Option Json → Option Nat
  | some (Json.num n) => some n
  | _ => none

/-- Read a JSON value as a string. -/
def asStr : Option Json → Option String
  | some (Json.str s) => some s
  | _ => none

/-- Read a JSON value as a boolean. -/
def asBool : Option Json → Option Bool
  | some (Json.bool b) => some b
  | _ => none

/-- Read a list of JSON values as a list of strings. -/
def strElems : List Json → Option (List String)
  | [] => some []
  | Json.str s :: js => (strElems js).map (s :: ·)
  | _ :: _ => none

/-- Read a JSON value as an array of strings. -/
def asStrArr : Option Json → Option (List String)
  | some (Json.arr js) => strElems js
  | _ => none

/-- Reading a parsed JSON value back as a review record: defined (`some`)
exactly when the value has the shape produced by `encodeReview`. -/
def decodeReview (j : Json) : Option Review :=
  match j with
  | Json.obj fs =>
    match asNum (jfield "id" fs), asNum (jfield "rating" fs),
          asStr (jfield "title" fs), asStr (jfield "review" fs),
          asStr (jfield "name" fs), asStr (jfield "email" fs),
          asBool (jfield "recommend" fs), asStr (jfield "date" fs),
          asNum (jfield "helpful" fs), asStrArr (jfield "images" fs) with
    | some i, some ra, some ti, some re, some na, some em,
      some rec, some da, some he, some im =>
        some ⟨i, ra, ti, re, na, em, rec, da, he, im⟩
    | _, _, _, _, _, _, _, _, _, _ => none
  | _ => none

/-- Reading a parsed JSON value back as a review collection. -/
def decodeReviewList : List Json → Option (List Review)
  | [] => some []
  | j :: js =>
    match decodeReview j, decodeReviewList js with
    | some r, some rs => some (r :: rs)
    | _, _ => none

/-- Reading a parsed JSON value back as a review collection: defined exactly
when the value is an array of review-shaped objects. -/
def decodeReviews : Json → Option (List Review)
  | Json.arr js => decodeReviewList js
  | _ => none

/-- Contents of the browser key-value slot `bespoke-reviews`, classified by
how the only two operations the source applies to it behave: `getItem`
yields nothing (`absent`) or a string; a string is falsy when empty
(`empty`); a nonempty string either parses as JSON (`valid`, carrying the
parsed value) or makes `JSON.parse` throw (`invalid`, carrying the raw
text). -/
inductive StoredState where
  | absent
  | empty
  | valid (j : Json)
  | invalid (s : String)

/-- `ReviewSystem.loadReviews` (lines 931-934):
`saved ? JSON.parse(saved) : []`.  An absent or empty slot is falsy and
yields the empty array; a valid blob is returned exactly as parsed, with no
shape check; an invalid blob makes `JSON.parse` throw, modelled as
`Except.error`. -/
def loadReviews : StoredState → Except String Json
  | StoredState.absent => Except.ok (Json.arr [])
  | StoredState.empty => Except.ok (Json.arr [])
  | StoredState.valid j => Except.ok j
  | StoredState.invalid s => Except.error ("SyntaxError: JSON.parse: " ++ s)

/-- `ReviewSystem.saveReviews` (lines 936-938): stores
`JSON.stringify(this.reviews)` under the fixed key, always producing a valid
blob. -/
def saveReviews (reviews : List Review) : StoredState :=
  StoredState.valid (encodeReviews reviews)

/-- State of the review-summary panel: `count` is the "N reviews" label,
`mean` the displayed average (`rating-number`), and `histogram` the five
rating-bar counts, listed for stars 1,2,3,4,5. -/
structure RatingSummary where
  count : Nat
  mean : Rat
  histogram : List Nat
deriving DecidableEq

/-- The summary panel as initially rendered by `createReviewSection`
(lines 578-611): rating-number 0.0, zero reviews, all five bar counts 0. -/
def initialSummary : RatingSummary :=
  { count := 0, mean := 0, histogram := [0, 0, 0, 0, 0] }

/-- `ReviewSystem.updateSummary` (lines 857-884) as a transformer of the
displayed summary panel: with an empty collection it returns early (line
858), leaving the panel as it was; otherwise it recomputes the count, the
mean (sum of ratings over count, line 861) and the per-star counts for
stars 1..5 (lines 876-883). -/
def updateSummary (reviews : List Review) (panel : RatingSummary) : RatingSummary :=
  if reviews.length = 0 then panel
  else
    { count := reviews.length
      mean := ((reviews.foldl (fun s r => s + r.rating) 0 : Nat) : Rat) / (reviews.length : Rat)
      histogram := [1, 2, 3, 4, 5].map fun i => (reviews.filter fun r => r.rating == i).length }

/-- The summary the page actually shows for a collection: `updateSummary`
applied to the initially rendered panel (the only panel state an empty
collection can ever meet, since reviews are never deleted). -/
def summarize (reviews : List Review) : RatingSummary :=
  updateSummary reviews initialSummary

/-- A filled-in review form as the submit handler sees it: `rating` is
`parseInt(form.dataset.rating)`, where the dataset attribute is `none` until
a star is clicked (`parseInt(undefined)` is NaN, modelled as `none`); the
remaining fields are the form controls (line 759, lines 770-774). -/
structure Draft where
  rating : Option Nat
  title : String
  review : String
  name : String
  email : String
  recommend : Bool
deriving DecidableEq

/-- The browser-side constraint validation declared on the review form's
markup (lines 673-689): title `required maxlength=100`, body
`required minlength=10 maxlength=1000`, name `required maxlength=50`, email
optional `maxlength=100`.  The submit event only fires when these hold. -/
def formConstraintsOk (d : Draft) : Bool :=
  decide (1 ≤ d.title.length) && decide (d.title.length ≤ 100) &&
  decide (10 ≤ d.review.length) && decide (d.review.length ≤ 1000) &&
  decide (1 ≤ d.name.length) && decide (d.name.length ≤ 50) &&
  decide (d.email.length ≤ 100)

/-- The two ways a review submission is rejected: blocked by the form's
constraint validation, or rejected by the handler's rating check at lines
762-765 (the 'Please select a rating' notice). -/
inductive SubmitError where
  | validation
  | missingRating
deriving DecidableEq

/-- The state a `ReviewSystem` instance owns: the in-memory collection
`this.reviews`, the persisted blob, and the displayed summary panel. -/
structure ReviewState where
  reviews : List Review
  stored : StoredState
  summary : RatingSummary

/-- `ReviewSystem.addReview` (lines 785-790): prepend (`unshift`), persist
the whole collection, re-render and recompute the summary panel. -/
def addReview (r : Review) (st : ReviewState) : ReviewState :=
  let reviews := r :: st.reviews
  { reviews := reviews
    stored := saveReviews reviews
    summary := updateSummary reviews st.summary }

/-- The star values a `StarRating` widget with `maxStars = 5` can report:
`render` (line 481) creates stars for i = 1..5 and `setRating` is only ever
invoked with one of their dataset values (lines 509-511). -/
def starValues : List Nat := [1, 2, 3, 4, 5]

/-- `ReviewSystem.submitReview` (lines 758-783).  The browser's constraint
validation runs before the submit event can fire; the handler then rejects a
falsy rating (`!rating`: unset dataset gives NaN, and 0 is falsy) with the
'Please select a rating' notice, and otherwise builds the review record
(`id = Date.now()`, `helpful = 0`, `images = []`) and hands it to
`addReview`.  `now` is `Date.now()` and `dateStr` the current ISO date
string. -/
def submitReview (d : Draft) (now : Nat) (dateStr : String) (st : ReviewState) :
    Except SubmitError ReviewState :=
  if formConstraintsOk d then
    match d.rating with
    | none => Except.error SubmitError.missingRating
    | some k =>
      if k = 0 then Except.error SubmitError.missingRating
      else Except.ok (addReview
        { id := now, rating := k, title := d.title, review := d.review,
          name := d.name, email := d.email, recommend := d.recommend,
          date := dateStr, helpful := 0, images := [] } st)
  else Except.error SubmitError.validation

/-- The mutation performed by `review.helpful++` after
`this.reviews.find(r => r.id === reviewId)` succeeds: the first review with
a matching id gets its counter bumped, every other element is untouched. -/
def incHelpful (i : Nat) : List Review → List Review
  | [] => []
  | r :: rs =>
    if r.id = i then { r with helpful := r.helpful + 1 } :: rs
    else r :: incHelpful i rs

/-- `ReviewSystem.markHelpful` (lines 912-925): find the review by id; when
found, increment its helpful counter, persist, and emit the
'Thank you for your feedback!' notice; when no review matches, the
`if (review)` guard makes the whole call a silent no-op: no error value and
no notice.  The second component collects the notices the call emits. -/
def markHelpful (i : Nat) (st : ReviewState) : ReviewState × List String :=
  match st.reviews.find? (fun r => r.id == i) with
  | none => (st, [])
  | some _ =>
    let reviews := incHelpful i st.reviews
    ({ st with reviews := reviews, stored := saveReviews reviews },
     ["Thank you for your feedback!"])

/-- JavaScript `parseInt` restricted to the inputs this program feeds it
(all-digit strings such as the review-filter buttons' values and the price
slider's value); any other input is modelled as `none` (NaN). -/
def parseIntDigits (s : String) : Option Nat :=
  let cs := s.toList
  if cs.isEmpty then none
  else if cs.all Char.isDigit then
    some (cs.foldl (fun n c => n * 10 + (c.toNat - 48)) 0)
  else none

/-- The per-item `show` decision of `ReviewSystem.filterReviews` (lines
894-909), as a function of the button's `data-filter` string and the item's
rating: every item shows under 'all'; 'images' hides every item (the
placeholder at lines 899-901); any other filter string shows exactly the
items whose rating equals `parseInt(filter)`. -/
def reviewShown (f : String) (rating : Nat) : Bool :=
  if f != "all" then
    if f == "images" then false
    else
      match parseIntDigits f with
      | some n => rating == n
      | none => false
  else true

/-- `ReviewSystem.filterReviews` restricted to its observable effect: the
subsequence of review items left visible (`display: block`), in stored
order. -/
def filterReviews (f : String) (reviews : List Review) : List Review :=
  reviews.filter fun r => reviewShown f r.rating

/-- A product card's data as `ProductFilter.applyFilters` reads it from the
page: `data-category`, `data-material`, `data-price` (parsed to a number),
and the title and description texts. -/
structure Product where
  category : String
  material : String
  price : Nat
  title : String
  description : String
deriving DecidableEq

/-- The filter state a `ProductFilter` instance owns: `this.filters.category`
and `.material` (initially 'all', lines 7-12), `this.filters.maxPrice`
(unset until the price slider moves), and `this.searchTerm` (unset until a
search keystroke; stored already lowercased, line 62). -/
structure FilterState where
  category : String
  material : String
  maxPrice : Option Nat
  searchTerm : Option String
deriving DecidableEq

/-- The filter state at construction (constructor lines 5-14). -/
def initialFilters : FilterState :=
  { category := "all", material := "all", maxPrice := none, searchTerm := none }

/-- ASCII lowering of one character, as `String.prototype.toLowerCase`
behaves on the ASCII texts involved. -/
def charLower (c : Char) : Char :=
  if 'A' ≤ c ∧ c ≤ 'Z' then Char.ofNat (c.toNat + 32) else c

/-- ASCII `toLowerCase`. -/
def strLower (s : String) : String :=
  String.mk (s.toList.map charLower)

/-- Whether `needle` occurs as a contiguous run at the front of `hay`. -/
def listStartsWith : List Char → List Char → Bool
  | [], _ => true
  | _ :: _, [] => false
  | a :: as, b :: bs => a == b && listStartsWith as bs

/-- Whether `needle` occurs as a contiguous run anywhere in `hay`. -/
def listOccurs : List Char → List Char → Bool
  | needle, [] => listStartsWith needle []
  | needle, b :: bs => listStartsWith needle (b :: bs) || listOccurs needle bs

/-- JavaScript `String.prototype.includes`. -/
def strIncludes (hay needle : String) : Bool :=
  listOccurs needle.toList hay.toList

/-- The two filter dimensions the `.filter-btn` buttons drive through
`handleFilterClick` (the page's buttons carry `data-filter` of 'category' or
'material'). -/
inductive FilterDim where
  | category
  | material
deriving DecidableEq

/-- `ProductFilter.handleFilterClick` (lines 46-59) restricted to its state
effect: `this.filters[filterType] = filterValue`, replacing exactly one
dimension. -/
def handleFilterClick (dim : FilterDim) (value : String) (fs : FilterState) : FilterState :=
  match dim with
  | FilterDim.category => { fs with category := value }
  | FilterDim.material => { fs with material := value }

/-- `ProductFilter.handleSearch` (lines 61-64): stores the lowercased search
term. -/
def handleSearch (term : String) (fs : FilterState) : FilterState :=
  { fs with searchTerm := some (strLower term) }

/-- `ProductFilter.handlePriceFilter` (lines 66-70):
`this.filters.maxPrice = parseInt(maxPrice)` where `maxPrice` is the
slider's string value. -/
def handlePriceFilter (value : String) (fs : FilterState) : FilterState :=
  { fs with maxPrice := parseIntDigits value }

/-- The per-card `show` decision computed by `ProductFilter.applyFilters`
(lines 72-118), translated clause by clause: the category and material
clauses compare strings when the filter is not 'all'; the search clause runs
only when `this.searchTerm` is truthy (set and nonempty) and lowercases the
card's texts before `includes`; the price clause runs only when
`this.filters.maxPrice` is truthy (set and nonzero — `if (this.filters.maxPrice)`)
and hides cards priced strictly above it. -/
def isVisible (fs : FilterState) (p : Product) : Bool :=
  let s0 := true
  let s1 := if fs.category != "all" && p.category != fs.category then false else s0
  let s2 := if fs.material != "all" && p.material != fs.material then false else s1
  let s3 :=
    match fs.searchTerm with
    | none => s2
    | some t =>
      if t != "" && !strIncludes (strLower p.title) t
          && !strIncludes (strLower p.description) t then false
      else s2
  match fs.maxPrice with
  | none => s3
  | some m => if m != 0 && decide (m < p.price) then false else s3

/-- The category clause of the visibility conjunction. -/
def categoryOk (fs : FilterState) (p : Product) : Bool :=
  fs.category == "all" || p.category == fs.category

/-- The material clause of the visibility conjunction. -/
def materialOk (fs : FilterState) (p : Product) : Bool :=
  fs.material == "all" || p.material == fs.material

/-- The search clause of the visibility conjunction: no term, an empty term,
or a case-insensitive substring hit in title or description. -/
def searchOk (fs : FilterState) (p : Product) : Bool :=
  match fs.searchTerm with
  | none => true
  | some t =>
    t == "" || strIncludes (strLower p.title) t || strIncludes (strLower p.description) t

/-- The price clause of the visibility conjunction as the code enforces it:
an unset or zero maximum passes everything, otherwise the price must not
exceed it. -/
def priceOk (fs : FilterState) (p : Product) : Bool :=
  match fs.maxPrice with
  | none => true
  | some m => m == 0 || decide (p.price ≤ m)

/-- The visibility predicate exactly as the specification words it (spec
section 4.4), written from the spec's text for comparison against the
source's `applyFilters` decision; it differs from `priceOk` in demanding
`price ≤ maxPrice` whenever `maxPrice` is set, zero included. -/
def specVisible (fs : FilterState) (p : Product) : Bool :=
  (fs.category == "all" || p.category == fs.category) &&
  (fs.material == "all" || p.material == fs.material) &&
  (match fs.maxPrice with
   | none => true
   | some m => decide (p.price ≤ m)) &&
  (match fs.searchTerm with
   | none => true
   | some t =>
     t == "" || strIncludes (strLower p.title) t || strIncludes (strLower p.description) t)

/-- `ProductComparison.removeFromCompare` (lines 202-205):
`this.compareList.filter(id => id !== productId)`. -/
def removeFromCompare (productId : String) (l : List String) : List String :=
  l.filter fun x => x != productId

/-- `ProductComparison.addToCompare` (lines 184-200) with `maxCompare = 3`
(line 142): an already-present id is removed instead (toggle); otherwise the
id is pushed only while fewer than 3 items are held; a full tray leaves the
list unchanged and shows the 'Maximum 3 products' warning.  The boolean
reports whether the id was actually added (the push branch). -/
def addToCompare (productId : String) (l : List String) : List String × Bool :=
  if l.contains productId then (removeFromCompare productId l, false)
  else if l.length < 3 then (l ++ [productId], true)
  else (l, false)

/-- `ProductComparison.clearCompare` (lines 267-274): empties the tray. -/
def clearCompare (_ : List String) : List String := []

/-- The operations a user can drive the comparison tray through. -/
inductive CompareOp where
  | add (productId : String)
  | remove (productId : String)
  | clear

/-- One tray operation's effect on the list of compared ids. -/
def runOp : CompareOp → List String → List String
  | CompareOp.add i, l => (addToCompare i l).1
  | CompareOp.remove i, l => removeFromCompare i l
  | CompareOp.clear, l => clearCompare l

/-- A whole user session of tray operations. -/
def runOps : List CompareOp → List String → List String
  | [], l => l
  | op :: ops, l => runOps ops (runOp op l)

/-- A sample review used to instantiate the general theorems. -/
def sampleReview : Review :=
  ⟨7, 5, "Great bag", "Exceeded expectations in every way", "Ana", "", true,
   "2026-10-12T00:00:00.000Z", 0, []⟩

/-- A freshly constructed `ReviewSystem` on a browser with no prior data. -/
def emptyState : ReviewState :=
  ⟨[], StoredState.absent, initialSummary⟩

/-- A `ReviewSystem` holding exactly the sample review. -/
def oneReviewState : ReviewState :=
  ⟨[sampleReview], saveReviews [sampleReview], summarize [sampleReview]⟩

theorem strElems_map (l : List String) : strElems (l.map Json.str) = some l := by
  induction l with
  | nil => rfl
  | cons a t ih => simp [strElems, ih]

theorem decodeReview_encodeReview (r : Review) :
    decodeReview (encodeReview r) = some r := by
  simp [decodeReview, encodeReview, jfield, asNum, asStr, asBool, asStrArr, strElems_map]

theorem decodeReviews_encodeReviews (rs : List Review) :
    decodeReviews (encodeReviews rs) = some rs := by
  unfold decodeReviews encodeReviews
  induction rs with
  | nil => rfl
  | cons r t ih => simp_all [decodeReviewList, decodeReview_encodeReview]

theorem foldl_rating_add (R : List Review) (n : Nat) :
    R.foldl (fun s r => s + r.rating) n = n + (R.map (fun r => r.rating)).sum := by
  induction R generalizing n with
  | nil => simp
  | cons r t ih => simp [List.foldl_cons, ih, Nat.add_assoc]

theorem countRating_cons (i : Nat) (r : Review) (t : List Review) :
    ((r :: t).filter fun x => x.rating == i).length
      = (if r.rating = i then 1 else 0) + ((t.filter fun x => x.rating == i).length) := by
  by_cases h : r.rating = i
  · simp [List.filter_cons, h]
    omega
  · simp [List.filter_cons, h]

theorem hist_sum (R : List Review) (hR : ∀ r ∈ R, 1 ≤ r.rating ∧ r.rating ≤ 5) :
    (([1, 2, 3, 4, 5].map fun i => (R.filter fun r => r.rating == i).length)).sum
      = R.length := by
  induction R with
  | nil => rfl
  | cons r t ih =>
    have hr := hR r (by simp)
    have ht := ih fun x hx => hR x (by simp [hx])
    have hcase : r.rating = 1 ∨ r.rating = 2 ∨ r.rating = 3 ∨ r.rating = 4 ∨ r.rating = 5 := by
      omega
    simp only [List.map_cons, List.map_nil, List.sum_cons, List.sum_nil] at ht ⊢
    simp only [countRating_cons]
    rcases hcase with h | h | h | h | h <;> simp only [h] <;> norm_num <;> omega

theorem decide_le_eq_not_lt (a b : Nat) : decide (a ≤ b) = !decide (b < a) := by
  by_cases h : a ≤ b
  · simp [h, Nat.not_lt.mpr h]
  · simp [h, Nat.lt_of_not_le h]

theorem bool_guard (b s : Bool) : (if b = true then false else s) = (!b && s) := by
  cases b <;> simp

theorem isVisible_eq_conj (fs : FilterState) (p : Product) :
    isVisible fs p = (categoryOk fs p && materialOk fs p && searchOk fs p && priceOk fs p) := by
  unfold isVisible categoryOk materialOk searchOk priceOk
  rcases h1 : fs.searchTerm with _ | t <;> rcases h2 : fs.maxPrice with _ | m <;>
    simp only [bne, decide_le_eq_not_lt, bool_guard, Bool.not_and, Bool.not_not,
      Bool.and_true, Bool.true_and] <;>
    simp [Bool.and_comm, Bool.and_left_comm, Bool.and_assoc, Bool.or_comm,
      Bool.or_left_comm, Bool.or_assoc]

theorem markHelpful_reviews_of_found (i : Nat) (st : ReviewState) (r0 : Review)
    (hf : st.reviews.find? (fun r => r.id == i) = some r0) :
    (markHelpful i st).1.reviews = incHelpful i st.reviews := by
  simp [markHelpful, hf]

theorem find?_id_split (i : Nat) (pre post : List Review) (r : Review)
    (hpre : ∀ x ∈ pre, x.id ≠ i) (hid : r.id = i) :
    (pre ++ r :: post).find? (fun x => x.id == i) = some r := by
  induction pre with
  | nil => simp [hid]
  | cons a t ih =>
    have ha : ¬((fun x : Review => x.id == i) a = true) := by simp [hpre a (by simp)]
    rw [List.cons_append, List.find?_cons_of_neg (t ++ r :: post) ha]
    exact ih fun x hx => hpre x (by simp [hx])

theorem incHelpful_split (i : Nat) (pre post : List Review) (r : Review)
    (hpre : ∀ x ∈ pre, x.id ≠ i) (hid : r.id = i) :
    incHelpful i (pre ++ r :: post) = pre ++ { r with helpful := r.helpful + 1 } :: post := by
  induction pre with
  | nil => simp [incHelpful, hid]
  | cons a t ih =>
    have ha : a.id ≠ i := hpre a (by simp)
    have hih := ih fun x hx => hpre x (by simp [hx])
    simp only [List.cons_append, incHelpful, ha, if_false, List.append_eq]
    rw [hih]

theorem length_runOp_le (op : CompareOp) (l : List String) (h : l.length ≤ 3) :
    (runOp op l).length ≤ 3 := by
  cases op with
  | add i =>
    unfold runOp addToCompare removeFromCompare
    by_cases hc : i ∈ l
    · simpa [hc] using le_trans (List.length_filter_le (fun x => x != i) l) h
    · by_cases hlen : l.length < 3
      · simp [hc, hlen]; omega
      · simp [hc, hlen]; exact h
  | remove i => simpa [runOp, removeFromCompare] using le_trans (List.length_filter_le _ _) h
  | clear => simp [runOp, clearCompare]

theorem runOps_length_le (ops : List CompareOp) (l : List String) (h : l.length ≤ 3) :
    (runOps ops l).length ≤ 3 := by
  induction ops generalizing l with
  | nil => exact h
  | cons op t ih => exact ih _ (length_runOp_le op l h)

theorem filter_ne_length (a : String) (l : List String) (hnd : l.Nodup) (ha : a ∈ l) :
    (l.filter fun x => x != a).length + 1 = l.length := by
  induction l with
  | nil => cases ha
  | cons b t ih =>
    rcases List.nodup_cons.mp hnd with ⟨hb, ht⟩
    by_cases hba : b = a
    · subst hba
      have hself : t.filter (fun x => x != b) = t := by
        apply List.filter_eq_self.mpr
        intro x hx
        have hxb : x ≠ b := fun h => hb (h ▸ hx)
        simp [hxb]
      simp [List.filter_cons, hself]
    · have ha' : a ∈ t := by
        rcases List.mem_cons.mp ha with h | h
        · exact absurd h.symm hba
        · exact h
      have hb' : (b != a) = true := by simp [hba]
      have hih := ih ht ha'
      rw [List.filter_cons]
      simp only [hb', if_true, List.length_cons]
      omega

/-- Claim C1 counterexample: a stored blob that is not valid JSON does not
yield the empty sequence — `ReviewSystem.loadReviews` lets the `JSON.parse`
error propagate to its caller instead of treating malformed data as
absence. -/
theorem C1_counterexample :
    loadReviews (StoredState.invalid "not json") =
      Except.error "SyntaxError: JSON.parse: not json" ∧
    loadReviews (StoredState.invalid "not json") ≠ Except.ok (Json.arr []) :=
  ⟨rfl, fun h => Except.noConfusion h⟩

/-- Claim C1 (amended): load yields the empty sequence exactly when no prior
data exists (the slot is absent or empty); a parseable blob is returned
as-is, with no check that it is a review collection, and an unparseable blob
makes the parse error propagate to the caller. -/
theorem C1_loadReviews_amended (j : Json) (s : String) :
    loadReviews StoredState.absent = Except.ok (Json.arr []) ∧
    loadReviews StoredState.empty = Except.ok (Json.arr []) ∧
    loadReviews (StoredState.valid j) = Except.ok j ∧
    loadReviews (StoredState.invalid s) =
      Except.error ("SyntaxError: JSON.parse: " ++ s) :=
  ⟨rfl, rfl, rfl, rfl⟩

/-- Claim C2: for every review collection whose ratings respect the data
model's 1..5 invariant, the displayed summary satisfies count = length,
histogram bucket k = number of reviews rated k with all five buckets present,
histogram total = count, mean = sum of ratings over count for a nonempty
collection, and the summary of the empty collection is count 0, mean 0.0,
all buckets 0. -/
theorem C2_summarize_correct (R : List Review)
    (hR : ∀ r ∈ R, 1 ≤ r.rating ∧ r.rating ≤ 5) :
    (summarize R).count = R.length ∧
    (summarize R).histogram
      = [1, 2, 3, 4, 5].map (fun k => (R.filter fun r => r.rating == k).length) ∧
    (summarize R).histogram.length = 5 ∧
    (summarize R).histogram.sum = (summarize R).count ∧
    (R ≠ [] →
      (summarize R).mean = (((R.map fun r => r.rating).sum : Nat) : Rat) / (R.length : Rat)) ∧
    summarize [] = { count := 0, mean := 0, histogram := [0, 0, 0, 0, 0] } := by
  by_cases hemp : R = []
  · subst hemp
    exact ⟨rfl, rfl, rfl, rfl, fun h => absurd rfl h, rfl⟩
  · have hne : ¬(R.length = 0) := fun h => hemp (List.length_eq_zero.mp h)
    unfold summarize updateSummary
    rw [if_neg hne]
    refine ⟨rfl, rfl, by simp, ?_, ?_, rfl⟩
    · simpa using hist_sum R hR
    · intro _
      simp [foldl_rating_add]

/-- Claim C2 witness: the summary of the singleton collection holding the
sample five-star review. -/
theorem C2_summarize_correct_witness :
    (∀ r ∈ [sampleReview], 1 ≤ r.rating ∧ r.rating ≤ 5) ∧
    ((summarize [sampleReview]).count = [sampleReview].length ∧
     (summarize [sampleReview]).histogram
       = [1, 2, 3, 4, 5].map (fun k => ([sampleReview].filter fun r => r.rating == k).length) ∧
     (summarize [sampleReview]).histogram.length = 5 ∧
     (summarize [sampleReview]).histogram.sum = (summarize [sampleReview]).count ∧
     ([sampleReview] ≠ [] →
       (summarize [sampleReview]).mean
         = ((([sampleReview].map fun r => r.rating).sum : Nat) : Rat)
             / (([sampleReview] : List Review).length : Rat)) ∧
     summarize [] = { count := 0, mean := 0, histogram := [0, 0, 0, 0, 0] }) :=
  ⟨by decide, C2_summarize_correct [sampleReview] (by decide)⟩

/-- Claim C7: loading immediately after saving a collection returns exactly
that collection — the loaded value is the stored encoding of the collection
and that encoding reads back as the original reviews, field by field. -/
theorem C7_save_load_roundtrip (X : List Review) :
    loadReviews (saveReviews X) = Except.ok (encodeReviews X) ∧
    decodeReviews (encodeReviews X) = some X :=
  ⟨rfl, decodeReviews_encodeReviews X⟩

/-- Claim C3: a submitted draft (whose rating, when present, comes from a
star click and is hence one of 1..5) is rejected — no review is added —
unless its rating is present and in 1..5, its title has length 1..100, its
body 10..1000 and its author name 1..50; and a draft that passes the form's
field validation but has no rating fails with the missing-rating error. -/
theorem C3_submit_validation (d : Draft) (now : Nat) (dateStr : String) (st : ReviewState)
    (hstar : d.rating = none ∨ ∃ k, k ∈ starValues ∧ d.rating = some k) :
    (¬ ((∃ k, d.rating = some k ∧ 1 ≤ k ∧ k ≤ 5) ∧
        1 ≤ d.title.length ∧ d.title.length ≤ 100 ∧
        10 ≤ d.review.length ∧ d.review.length ≤ 1000 ∧
        1 ≤ d.name.length ∧ d.name.length ≤ 50) →
      ∃ e, submitReview d now dateStr st = Except.error e) ∧
    (formConstraintsOk d = true → d.rating = none →
      submitReview d now dateStr st = Except.error SubmitError.missingRating) := by
  constructor
  · intro hbad
    by_cases hc : formConstraintsOk d = true
    · rcases hstar with hr | ⟨k, hk, hr⟩
      · refine ⟨SubmitError.missingRating, ?_⟩
        simp [submitReview, hc, hr]
      · exfalso
        apply hbad
        have hk' : 1 ≤ k ∧ k ≤ 5 := by
          fin_cases hk <;> omega
        refine ⟨⟨k, hr, hk'.1, hk'.2⟩, ?_⟩
        have := hc
        unfold formConstraintsOk at this
        simp only [Bool.and_eq_true, decide_eq_true_eq] at this
        exact ⟨this.1.1.1.1.1.1, this.1.1.1.1.1.2, this.1.1.1.1.2, this.1.1.1.2,
          this.1.1.2, this.1.2⟩
    · refine ⟨SubmitError.validation, ?_⟩
      simp only [Bool.not_eq_true] at hc
      simp [submitReview, hc]
  · intro hc hr
    simp [submitReview, hc, hr]

/-- Claim C3 witness: a draft with a five-star rating but an empty title is
rejected, and a field-valid draft with no rating selected fails with the
missing-rating error. -/
theorem C3_submit_validation_witness :
    ((⟨some 5, "", "Exceeded expectations in every way", "Ana", "", true⟩ : Draft).rating = none ∨
      ∃ k, k ∈ starValues ∧
        (⟨some 5, "", "Exceeded expectations in every way", "Ana", "", true⟩ : Draft).rating
          = some k) ∧
    ((¬ ((∃ k, (⟨some 5, "", "Exceeded expectations in every way", "Ana", "", true⟩ : Draft).rating
            = some k ∧ 1 ≤ k ∧ k ≤ 5) ∧
        1 ≤ ("" : String).length ∧ ("" : String).length ≤ 100 ∧
        10 ≤ ("Exceeded expectations in every way" : String).length ∧
        ("Exceeded expectations in every way" : String).length ≤ 1000 ∧
        1 ≤ ("Ana" : String).length ∧ ("Ana" : String).length ≤ 50) →
      ∃ e, submitReview ⟨some 5, "", "Exceeded expectations in every way", "Ana", "", true⟩
          42 "2026-10-12" emptyState = Except.error e) ∧
     (formConstraintsOk ⟨some 5, "", "Exceeded expectations in every way", "Ana", "", true⟩ = true →
      (⟨some 5, "", "Exceeded expectations in every way", "Ana", "", true⟩ : Draft).rating = none →
      submitReview ⟨some 5, "", "Exceeded expectations in every way", "Ana", "", true⟩
          42 "2026-10-12" emptyState = Except.error SubmitError.missingRating)) :=
  ⟨Or.inr ⟨5, by decide, rfl⟩,
   C3_submit_validation ⟨some 5, "", "Exceeded expectations in every way", "Ana", "", true⟩
     42 "2026-10-12" emptyState (Or.inr ⟨5, by decide, rfl⟩)⟩

/-- Claim C4 counterexample: marking an unknown id helpful on a fresh system
does not fail with a NotFoundError — the call returns with the state
untouched and emits no notice at all (the reviews, blob and panel are
exactly as before, and the notice list is empty). -/
theorem C4_counterexample :
    markHelpful 1 emptyState = (emptyState, []) :=
  rfl

/-- Claim C4 (amended): markHelpful on an id with no matching review is a
silent no-op — the state is unchanged and no error or notice is surfaced —
while on a present id it increments that review's helpful counter in place,
and a second invocation increments it again (no idempotence guard). -/
theorem C4_markHelpful_amended (i : Nat) (st : ReviewState) :
    (st.reviews.find? (fun r => r.id == i) = none → markHelpful i st = (st, [])) ∧
    (∀ pre r post, st.reviews = pre ++ r :: post → (∀ x ∈ pre, x.id ≠ i) → r.id = i →
      (markHelpful i st).1.reviews = pre ++ { r with helpful := r.helpful + 1 } :: post ∧
      (markHelpful i ((markHelpful i st).1)).1.reviews
        = pre ++ { r with helpful := r.helpful + 2 } :: post) := by
  constructor
  · intro hnone
    simp [markHelpful, hnone]
  · intro pre r post hsplit hpre hid
    have hfind1 : st.reviews.find? (fun x => x.id == i) = some r := by
      rw [hsplit]
      exact find?_id_split i pre post r hpre hid
    have hstep1 : (markHelpful i st).1.reviews
        = pre ++ { r with helpful := r.helpful + 1 } :: post := by
      rw [markHelpful_reviews_of_found i st r hfind1, hsplit]
      exact incHelpful_split i pre post r hpre hid
    refine ⟨hstep1, ?_⟩
    have hfind2 : ((markHelpful i st).1.reviews).find? (fun x => x.id == i)
        = some { r with helpful := r.helpful + 1 } := by
      rw [hstep1]
      exact find?_id_split i pre post _ hpre hid
    rw [markHelpful_reviews_of_found i (markHelpful i st).1 _ hfind2, hstep1]
    have harith : r.helpful + 1 + 1 = r.helpful + 2 := by omega
    rw [← harith]
    exact incHelpful_split i pre post _ hpre hid

/-- Claim C4 witness: on a system holding the sample review (id 7), marking
id 7 helpful once sets its counter to 1 and a second invocation sets it
to 2. -/
theorem C4_markHelpful_amended_witness :
    (markHelpful 7 oneReviewState).1.reviews
      = [{ sampleReview with helpful := sampleReview.helpful + 1 }] ∧
    (markHelpful 7 ((markHelpful 7 oneReviewState).1)).1.reviews
      = [{ sampleReview with helpful := sampleReview.helpful + 2 }] :=
  (C4_markHelpful_amended 7 oneReviewState).2 [] sampleReview [] rfl
    (fun x hx => absurd hx (List.not_mem_nil x)) rfl

/-- Claim C5: a draft that passes the form validation and carries a truthy
rating is accepted: the constructed review has id equal to the current
timestamp, it is prepended so the collection grows by exactly one with the
new review in front and the previous reviews following in order, the whole
collection is handed to the store, and the summary panel is recomputed. -/
theorem C5_submit_success (d : Draft) (now : Nat) (dateStr : String) (st : ReviewState)
    (k : Nat) (hc : formConstraintsOk d = true) (hr : d.rating = some k) (hk : k ≠ 0) :
    ∃ st', submitReview d now dateStr st = Except.ok st' ∧
      st'.reviews
        = ({ id := now, rating := k, title := d.title, review := d.review,
             name := d.name, email := d.email, recommend := d.recommend,
             date := dateStr, helpful := 0, images := [] } : Review) :: st.reviews ∧
      st'.reviews.length = st.reviews.length + 1 ∧
      st'.stored = saveReviews st'.reviews ∧
      st'.summary = updateSummary st'.reviews st.summary := by
  have hmain : submitReview d now dateStr st
      = Except.ok (addReview { id := now, rating := k, title := d.title,
                               review := d.review, name := d.name, email := d.email,
                               recommend := d.recommend, date := dateStr, helpful := 0,
                               images := [] } st) := by
    simp [submitReview, hc, hr, hk]
  exact ⟨_, hmain, by simp [addReview], by simp [addReview], by simp [addReview],
    by simp [addReview]⟩

/-- Claim C5 witness: submitting the sample draft on a fresh system. -/
theorem C5_submit_success_witness :
    formConstraintsOk ⟨some 5, "Great bag", "Exceeded expectations in every way",
        "Ana", "", true⟩ = true ∧
    (∃ st', submitReview ⟨some 5, "Great bag", "Exceeded expectations in every way",
          "Ana", "", true⟩ 42 "2026-10-12" emptyState = Except.ok st' ∧
      st'.reviews
        = ({ id := 42, rating := 5, title := "Great bag",
             review := "Exceeded expectations in every way", name := "Ana", email := "",
             recommend := true, date := "2026-10-12", helpful := 0,
             images := [] } : Review) :: emptyState.reviews ∧
      st'.reviews.length = emptyState.reviews.length + 1 ∧
      st'.stored = saveReviews st'.reviews ∧
      st'.summary = updateSummary st'.reviews emptyState.summary) :=
  ⟨by decide,
   C5_submit_success ⟨some 5, "Great bag", "Exceeded expectations in every way",
       "Ana", "", true⟩ 42 "2026-10-12" emptyState 5 (by decide) rfl (by decide)⟩

/-- Claim C6 counterexample: with the maximum price set to 0 through the
price slider, the code shows a product priced 50, while the claimed
conjunction (price at most maxPrice whenever maxPrice is set) hides it — so
the per-card decision is not the spec's conjunction at every filter state. -/
theorem C6_counterexample :
    isVisible (handlePriceFilter "0" initialFilters)
        ⟨"tote", "leather", 50, "Classic Tote", "A bag"⟩ = true ∧
    specVisible (handlePriceFilter "0" initialFilters)
        ⟨"tote", "leather", 50, "Classic Tote", "A bag"⟩ = false :=
  ⟨rfl, rfl⟩

/-- Claim C6 (amended): the per-card decision equals the pure conjunction of
the four clauses, where the price clause passes every product when the
maximum price is unset or zero (a zero maximum is falsy and disables the
clause); the decision is deterministic, and setting one filter dimension
leaves every other dimension's clause unchanged. -/
theorem C6_isVisible_amended (fs : FilterState) (p : Product) (v t pv : String) :
    (isVisible fs p
      = (categoryOk fs p && materialOk fs p && searchOk fs p && priceOk fs p)) ∧
    isVisible fs p = isVisible fs p ∧
    (materialOk (handleFilterClick FilterDim.category v fs) p = materialOk fs p ∧
     searchOk (handleFilterClick FilterDim.category v fs) p = searchOk fs p ∧
     priceOk (handleFilterClick FilterDim.category v fs) p = priceOk fs p) ∧
    (categoryOk (handleFilterClick FilterDim.material v fs) p = categoryOk fs p ∧
     searchOk (handleFilterClick FilterDim.material v fs) p = searchOk fs p ∧
     priceOk (handleFilterClick FilterDim.material v fs) p = priceOk fs p) ∧
    (categoryOk (handleSearch t fs) p = categoryOk fs p ∧
     materialOk (handleSearch t fs) p = materialOk fs p ∧
     priceOk (handleSearch t fs) p = priceOk fs p) ∧
    (categoryOk (handlePriceFilter pv fs) p = categoryOk fs p ∧
     materialOk (handlePriceFilter pv fs) p = materialOk fs p ∧
     searchOk (handlePriceFilter pv fs) p = searchOk fs p) :=
  ⟨isVisible_eq_conj fs p, rfl, ⟨rfl, rfl, rfl⟩, ⟨rfl, rfl, rfl⟩, ⟨rfl, rfl, rfl⟩,
   ⟨rfl, rfl, rfl⟩⟩

/-- Claim C8: under every sequence of add/remove/clear operations a tray
that starts within the 3-item bound stays within it; adding an absent id to
a full tray returns false and leaves the tray unchanged; and adding a
present id performs a removal instead — it returns false and shrinks a
duplicate-free tray by exactly one. -/
theorem C8_compare_bound (ops : List CompareOp) (l : List String) (d a : String)
    (hl : l.length ≤ 3) :
    (runOps ops l).length ≤ 3 ∧
    (l.length = 3 → d ∉ l → addToCompare d l = (l, false)) ∧
    (l.Nodup → a ∈ l → (addToCompare a l).2 = false ∧
      (addToCompare a l).1.length + 1 = l.length) := by
  refine ⟨runOps_length_le ops l hl, ?_, ?_⟩
  · intro h3 hd
    simp [addToCompare, hd, h3]
  · intro hnd ha
    have hc : l.contains a = true := List.elem_eq_true_of_mem ha
    constructor
    · unfold addToCompare
      rw [if_pos hc]
    · unfold addToCompare
      rw [if_pos hc]
      exact filter_ne_length a l hnd ha

/-- Claim C8 witness: the spec's own scenario, on the full tray a,b,c — a
fourth add is rejected, and re-adding a present id toggles it out. -/
theorem C8_compare_bound_witness :
    (["a", "b", "c"] : List String).length ≤ 3 ∧
    ((runOps [CompareOp.add "d"] ["a", "b", "c"]).length ≤ 3 ∧
     ((["a", "b", "c"] : List String).length = 3 → "d" ∉ (["a", "b", "c"] : List String) →
       addToCompare "d" ["a", "b", "c"] = (["a", "b", "c"], false)) ∧
     ((["a", "b", "c"] : List String).Nodup → "a" ∈ (["a", "b", "c"] : List String) →
       (addToCompare "a" ["a", "b", "c"]).2 = false ∧
       (addToCompare "a" ["a", "b", "c"]).1.length + 1
         = (["a", "b", "c"] : List String).length)) :=
  ⟨by decide, C8_compare_bound [CompareOp.add "d"] ["a", "b", "c"] "d" "a" (by decide)⟩

/-- Claim C9: the review filter shows the full collection in stored order
under 'all', exactly the subsequence of reviews rated k under the k-star
button (whose data-filter value is the decimal string of k, for k in 1..5),
and nothing under the with-images button. -/
theorem C9_filterReviews (R : List Review) (k : Nat) (h1 : 1 ≤ k) (h5 : k ≤ 5) :
    filterReviews "all" R = R ∧
    filterReviews "images" R = [] ∧
    filterReviews (Nat.repr k) R = R.filter (fun r => r.rating == k) := by
  refine ⟨?_, ?_, ?_⟩
  · simp [filterReviews, reviewShown]
  · simp [filterReviews, reviewShown]
  · interval_cases k <;>
      exact List.filter_congr (fun r _ => rfl)

/-- Claim C9 witness: the three filtered views of the singleton collection
holding the sample five-star review. -/
theorem C9_filterReviews_witness :
    (1 : Nat) ≤ 5 ∧ (5 : Nat) ≤ 5 ∧
    (filterReviews "all" [sampleReview] = [sampleReview] ∧
     filterReviews "images" [sampleReview] = [] ∧
     filterReviews (Nat.repr 5) [sampleReview]
       = [sampleReview].filter (fun r => r.rating == 5)) :=
  ⟨by decide, by decide, C9_filterReviews [sampleReview] 5 (by decide) (by decide)⟩

/-- Claim C10: after the price slider sets the maximum price to 0, the price
clause passes every product and visibility is decided exactly by the
category, material and search clauses — identically to having no price
filter at all. -/
theorem C10_price_zero (fs : FilterState) (p : Product) :
    isVisible (handlePriceFilter "0" fs) p
      = (categoryOk fs p && materialOk fs p && searchOk fs p) ∧
    isVisible (handlePriceFilter "0" fs) p
      = isVisible { fs with maxPrice := none } p := by
  have hprice : priceOk (handlePriceFilter "0" fs) p = true := rfl
  have hcat : categoryOk (handlePriceFilter "0" fs) p = categoryOk fs p := rfl
  have hmat : materialOk (handlePriceFilter "0" fs) p = materialOk fs p := rfl
  have hsearch : searchOk (handlePriceFilter "0" fs) p = searchOk fs p := rfl
  have hprice2 : priceOk { fs with maxPrice := none } p = true := rfl
  have hcat2 : categoryOk { fs with maxPrice := none } p = categoryOk fs p := rfl
  have hmat2 : materialOk { fs with maxPrice := none } p = materialOk fs p := rfl
  have hsearch2 : searchOk { fs with maxPrice := none } p = searchOk fs p := rfl
  constructor
  · rw [isVisible_eq_conj, hprice, hcat, hmat, hsearch, Bool.and_true]
  · rw [isVisible_eq_conj, isVisible_eq_conj, hprice, hcat, hmat, hsearch,
      hprice2, hcat2, hmat2, hsearch2]

end BespokeBags
